import Mathlib

/-!
Verification of the `convert_model.py` conversion pipeline
(repository visionaryvybes/ai-artisan).

The script is glue code: it builds an RRDBNet super-resolution model with
fixed hyperparameters, loads a weight file, switches the model to inference
mode, exports it to ONNX with `torch.onnx.export`, and (only when run as a
script) shells out to `tensorflowjs_converter`.

We give a shallow embedding.  External, fallible library calls
(`torch.load`, writing the ONNX file, `os.system`) are resolved by an
environment `Env`; the script itself is embedded as a function from `Env`
to a trace of externally visible events plus an outcome (`none` models the
process aborting on a propagated exception).  Definitions are transcribed
from `src/convert_model.py`; the few pieces of third-party library
behaviour the claims depend on (the RRDBNet parameter manifest, strict
state-dict matching, inference-mode forward evaluation) are modelled from
the specification and marked as such in their doc comments.
-/

/-- Shape of a tensor: the list of its dimension sizes. -/
abbrev Shape := List Nat

/-- A numeric tensor: a shape together with flat integer contents.  The
claims under verification never depend on the numeric values, only on
shapes, so integer contents stand in for floating-point entries. -/
structure Tensor where
  shape : Shape
  data : List Int
deriving DecidableEq, Repr

/-- Synthetic tensor of a given shape, standing in for torch.randn: the
contents are arbitrary and irrelevant to every claim, only the shape
matters. -/
def randn (s : Shape) : Tensor :=
  { shape := s, data := (List.range (s.foldl (fun a b => a * b) 1)).map (fun i => Int.ofNat i) }

/-- A serialized state dict: a mapping from parameter names to tensors,
as produced by torch.load. -/
abbrev StateDict := List (String × Tensor)

/-- The five constructor arguments of RRDBNet, in the order of the call
site RRDBNet(num_in_ch=3, num_out_ch=3, num_feat=64, num_block=23, num_grow_ch=32). -/
structure RRDBNetArgs where
  num_in_ch : Nat
  num_out_ch : Nat
  num_feat : Nat
  num_block : Nat
  num_grow_ch : Nat
deriving DecidableEq, Repr

/-- Modelled from the spec: the RRDBNet architecture lives in the
third-party RealESRGAN package, not in this repository.  The spec only
fixes that the architecture (and hence its parameter manifest of names
and shapes) is a function of the five hyperparameters.  We use a
representative manifest determined by those hyperparameters: a first
convolution, one named parameter per residual-in-residual dense block,
and a last convolution.  Every claim quantifies over state dicts, so no
claim depends on the particular names chosen here. -/
def rrdbnetParamSpec (a : RRDBNetArgs) : List (String × Shape) :=
  [("conv_first.weight", [a.num_feat, a.num_in_ch, 3, 3])]
    ++ (List.range a.num_block).map
        (fun i => ("body." ++ toString i ++ ".weight", [a.num_feat, a.num_grow_ch]))
    ++ [("conv_last.weight", [a.num_out_ch, a.num_feat, 3, 3])]

/-- An in-memory model instance: fixed architecture hyperparameters, the
expected parameter manifest, the current parameter values, and the
training-mode flag (true on construction, cleared by eval()). -/
structure Model where
  args : RRDBNetArgs
  paramSpec : List (String × Shape)
  params : List (String × Tensor)
  training : Bool
deriving DecidableEq, Repr

/-- Modelled from the spec: constructing RRDBNet allocates a model with
the given hyperparameters, randomly initialised parameters matching the
manifest, and training mode enabled. -/
def RRDBNet (num_in_ch num_out_ch num_feat num_block num_grow_ch : Nat) : Model :=
  let a : RRDBNetArgs :=
    { num_in_ch := num_in_ch, num_out_ch := num_out_ch, num_feat := num_feat,
      num_block := num_block, num_grow_ch := num_grow_ch }
  { args := a
    paramSpec := rrdbnetParamSpec a
    params := (rrdbnetParamSpec a).map (fun p => (p.1, randn p.2))
    training := true }

/-- Name-to-shape view of a state dict. -/
def shapeMap (sd : StateDict) : List (String × Shape) :=
  sd.map (fun p => (p.1, p.2.shape))

/-- Shape associated to a name in a name-to-shape list, if any. -/
def lookupShape (l : List (String × Shape)) (k : String) : Option Shape :=
  (l.find? (fun p => p.1 = k)).map (fun p => p.2)

/-- Modelled from the spec: strict state-dict matching.  Loading succeeds
exactly when every expected parameter is present in the file with its
expected shape and the file holds no unexpected parameter.  Order in the
serialized mapping is irrelevant. -/
def strictMatch (sd : StateDict) (man : List (String × Shape)) : Bool :=
  man.all (fun p => lookupShape (shapeMap sd) p.1 = some p.2)
    && sd.all (fun p => lookupShape man p.1 = some p.2.shape)

/-- Modelled from the spec: Module.load_state_dict in its default strict
mode.  On a full match it binds every value into the model (all or
nothing, no partial loading); on any missing, unexpected or mis-shaped
parameter it raises, which the script does not catch. -/
def Model.load_state_dict (m : Model) (sd : StateDict) : Except String Model :=
  if strictMatch sd m.paramSpec then
    Except.ok { m with params := sd }
  else
    Except.error "load_state_dict strict mismatch"

/-- Modelled from the spec: Module.eval switches the model to inference
mode, disabling training-only computation paths. -/
def Model.eval (m : Model) : Model :=
  { m with training := false }

/-- Sum of all parameter entries; a concrete stand-in for the opaque
network computation, used by the forward function below. -/
def paramChecksum (params : List (String × Tensor)) : Int :=
  params.foldl (fun acc p => acc + p.2.data.foldl (fun a v => a + v) 0) 0

/-- Deterministic inference-mode forward computation: a pure function of
the parameters and the input. -/
def inferForward (params : List (String × Tensor)) (x : Tensor) : Tensor :=
  { shape := x.shape, data := x.data.map (fun v => v + paramChecksum params) }

/-- Modelled from the spec: a training-only stochastic path (dropout).
The mask genuinely depends on the random state. -/
def trainForward (params : List (String × Tensor)) (rng : Nat) (x : Tensor) : Tensor :=
  let y := inferForward params x
  { y with data := y.data.mapIdx (fun i v => if (rng + i) % 2 = 0 then 0 else v) }

/-- Modelled from the spec: one forward evaluation.  In training mode the
stochastic path consumes the random state; in inference mode the output
is a pure deterministic function of parameters and input. -/
def Model.forward (m : Model) (rng : Nat) (x : Tensor) : Tensor :=
  if m.training then trainForward m.params rng x else inferForward m.params x

/-- The fixed relative path the weight file is read from (line 12 of the
source). -/
def weightsPath : String := "weights/RealESRGAN_x4.pth"

/-- The fixed relative path the ONNX artifact is written to (line 23 of
the source). -/
def onnxPath : String := "model.onnx"

/-- The keyword arguments of the torch.onnx.export call, lines 20 to 33 of
the source, together with the traced example input. -/
structure OnnxExportCall where
  exampleInput : Tensor
  f : String
  export_params : Bool
  opset_version : Nat
  do_constant_folding : Bool
  input_names : List String
  output_names : List String
  dynamic_axes : List (String × List (Nat × String))
deriving DecidableEq, Repr

/-- The one export call the script issues, transcribed from lines 17 to 33
of the source: example = torch.randn(1, 3, 64, 64); then
torch.onnx.export(model, example, "model.onnx", export_params=True,
opset_version=11, do_constant_folding=True, input_names=["input"],
output_names=["output"], dynamic_axes with entries 2: "height", 3: "width"
for both "input" and "output"). -/
def theExportCall : OnnxExportCall :=
  { exampleInput := randn [1, 3, 64, 64]
    f := onnxPath
    export_params := true
    opset_version := 11
    do_constant_folding := true
    input_names := ["input"]
    output_names := ["output"]
    dynamic_axes :=
      [("input", [(2, "height"), (3, "width")]),
       ("output", [(2, "height"), (3, "width")])] }

/-- Externally visible events of one run: reading a file, performing the
ONNX export (a single forward trace plus one file write), and spawning a
subprocess through os.system. -/
inductive Event where
  | readFile : String → Event
  | exportOnnx : OnnxExportCall → Event
  | spawn : String → Event
deriving DecidableEq, Repr

/-- Resolution of the fallible external calls of one run: the outcome of
torch.load on the weight path, whether writing model.onnx succeeds, and
the exit status os.system returns for the converter subprocess. -/
structure Env where
  torchLoad : Except String StateDict
  exportWriteOk : Bool
  converterExit : Int
deriving Repr

/-- Embedding of convert_to_onnx (lines 7 to 33 of the source).  Returns
the trace of external events performed before returning or aborting, and
the loaded model on success; none models the process aborting on a
propagated exception (torch.load failure, strict state-dict mismatch, or
export write failure). -/
def convert_to_onnx (env : Env) : List Event × Option Model :=
  let model := RRDBNet 3 3 64 23 32
  match env.torchLoad with
  | Except.error _ => ([Event.readFile weightsPath], none)
  | Except.ok state_dict =>
    match model.load_state_dict state_dict with
    | Except.error _ => ([Event.readFile weightsPath], none)
    | Except.ok loaded =>
      let m := loaded.eval
      if env.exportWriteOk then
        ([Event.readFile weightsPath, Event.exportOnnx theExportCall], some m)
      else
        ([Event.readFile weightsPath], none)

/-- The exact command string passed to os.system, lines 39 to 45 of the
source.  The Python literal spans continuation lines, so each argument is
separated from the previous one by nine spaces (one before the
backslash, eight of indentation). -/
def tfjsCommand : String :=
  "tensorflowjs_converter         --input_format=tf_saved_model         --output_format=tfjs_graph_model         --signature_name=serving_default         --saved_model_tags=serve         model.onnx         ../public/models/real-esrgan"

/-- Accumulating pass over the characters of a command string: runs of
non-space characters become fields, runs of spaces separate them. -/
def shellWordsAux : List Char → List Char → List String
  | [], acc => if acc.isEmpty then [] else [String.mk acc.reverse]
  | c :: cs, acc =>
    if c = Char.ofNat 32 then
      if acc.isEmpty then shellWordsAux cs []
      else String.mk acc.reverse :: shellWordsAux cs []
    else shellWordsAux cs (c :: acc)

/-- Word-splitting a command string the way the shell builds the argument
vector: split on (runs of) spaces and drop empty fields. -/
def shellWords (s : String) : List String :=
  shellWordsAux s.toList []

/-- Embedding of the module executed as a script (the body under the
main guard, lines 35 to 45): run convert_to_onnx, then hand the constant
command string to os.system.  The exit status of the subprocess is
discarded; the run reports success whatever it was. -/
def runMain (env : Env) : List Event × Option Unit :=
  match convert_to_onnx env with
  | (tr, none) => (tr, none)
  | (tr, some _) =>
    let _status : Int := env.converterExit
    (tr ++ [Event.spawn tfjsCommand], some ())

/-- Embedding of loading the module: when executed as a script the guard
succeeds and the main body runs; on a plain import the guard fails and
nothing is executed. -/
def runModule (nameIsMain : Bool) (env : Env) : List Event × Option Unit :=
  if nameIsMain then runMain env else ([], some ())

/-- Recognizer for spawn events. -/
def isSpawn : Event → Bool
  | Event.spawn _ => true
  | _ => false

/-- Recognizer for export events. -/
def isExport : Event → Bool
  | Event.exportOnnx _ => true
  | _ => false

/-- The hyperparameters the script passes to RRDBNet. -/
def defaultArgs : RRDBNetArgs :=
  { num_in_ch := 3, num_out_ch := 3, num_feat := 64, num_block := 23, num_grow_ch := 32 }

/-- A well-formed weight file: one tensor of the expected shape for each
entry of the manifest of the instantiated architecture. -/
def goodStateDict : StateDict :=
  (rrdbnetParamSpec defaultArgs).map (fun p => (p.1, { shape := p.2, data := [] }))

/-- An environment in which every external call succeeds. -/
def envOK : Env :=
  { torchLoad := Except.ok goodStateDict, exportWriteOk := true, converterExit := 0 }

/-- The model state after the happy-path run: the constructed
architecture holding the loaded parameters, in inference mode. -/
def goodModel : Model :=
  { args := defaultArgs
    paramSpec := rrdbnetParamSpec defaultArgs
    params := goodStateDict
    training := false }

/-- An environment whose weight file deserializes to an empty mapping,
which cannot match the nonempty parameter manifest. -/
def envBad : Env :=
  { torchLoad := Except.ok [], exportWriteOk := true, converterExit := 0 }

/-- An environment in which the weight file loads and matches but writing
the ONNX artifact fails (for example, the working directory is not
writable). -/
def envNoWrite : Env :=
  { torchLoad := Except.ok goodStateDict, exportWriteOk := false, converterExit := 0 }

lemma convert_envOK :
    convert_to_onnx envOK
      = ([Event.readFile weightsPath, Event.exportOnnx theExportCall], some goodModel) := rfl

lemma runMain_envOK :
    runMain envOK
      = ([Event.readFile weightsPath, Event.exportOnnx theExportCall,
          Event.spawn tfjsCommand], some ()) := rfl

/-- Every run of convert_to_onnx either aborts having performed only the
weight-file read, or succeeds having performed exactly the read followed
by the one export call, the resulting model being the fixed architecture
in inference mode. -/
lemma convert_to_onnx_cases (env : Env) :
    ((convert_to_onnx env).2 = none
      ∧ (convert_to_onnx env).1 = [Event.readFile weightsPath])
    ∨ (∃ m, (convert_to_onnx env).2 = some m ∧ m.training = false
        ∧ m.args = defaultArgs ∧ m.paramSpec = rrdbnetParamSpec defaultArgs
        ∧ (convert_to_onnx env).1
            = [Event.readFile weightsPath, Event.exportOnnx theExportCall]) := by
  obtain ⟨tl, ew, ce⟩ := env
  cases tl with
  | error e => exact Or.inl ⟨rfl, rfl⟩
  | ok sd =>
    cases hm : strictMatch sd (RRDBNet 3 3 64 23 32).paramSpec with
    | false =>
      refine Or.inl ⟨?_, ?_⟩ <;> simp [convert_to_onnx, Model.load_state_dict, hm]
    | true =>
      cases ew with
      | false =>
        refine Or.inl ⟨?_, ?_⟩ <;> simp [convert_to_onnx, Model.load_state_dict, hm]
      | true =>
        refine Or.inr ⟨Model.eval { RRDBNet 3 3 64 23 32 with params := sd },
          ?_, rfl, rfl, rfl, ?_⟩ <;> simp [convert_to_onnx, Model.load_state_dict, hm]

/-- If torch.load raises, the run aborts right after the read. -/
lemma convert_load_fail (env : Env) (s : String)
    (h : env.torchLoad = Except.error s) :
    convert_to_onnx env = ([Event.readFile weightsPath], none) := by
  simp [convert_to_onnx, h]

/-- If the state dict does not match the manifest strictly, the run
aborts right after the read. -/
lemma convert_mismatch_fail (env : Env) (sd : StateDict)
    (h : env.torchLoad = Except.ok sd)
    (hm : strictMatch sd (RRDBNet 3 3 64 23 32).paramSpec = false) :
    convert_to_onnx env = ([Event.readFile weightsPath], none) := by
  simp [convert_to_onnx, Model.load_state_dict, h, hm]

/-- If writing model.onnx fails, the run aborts and no export event is
recorded. -/
lemma convert_write_fail (env : Env) (h : env.exportWriteOk = false) :
    convert_to_onnx env = ([Event.readFile weightsPath], none) := by
  cases htl : env.torchLoad with
  | error e => simp [convert_to_onnx, htl]
  | ok sd =>
    cases hm : strictMatch sd (RRDBNet 3 3 64 23 32).paramSpec with
    | false => simp [convert_to_onnx, Model.load_state_dict, htl, hm]
    | true => simp [convert_to_onnx, Model.load_state_dict, htl, hm, h]

/-- Every run of the script body either aborts with the trace
convert_to_onnx produced, or succeeds with that trace followed by the one
subprocess spawn. -/
lemma runMain_cases (env : Env) :
    ((convert_to_onnx env).2 = none
      ∧ runMain env = ((convert_to_onnx env).1, none))
    ∨ ((∃ m, (convert_to_onnx env).2 = some m)
      ∧ runMain env
          = ((convert_to_onnx env).1 ++ [Event.spawn tfjsCommand], some ())) := by
  unfold runMain
  cases hc : convert_to_onnx env with
  | mk tr res =>
    cases res with
    | none => exact Or.inl ⟨rfl, rfl⟩
    | some m => exact Or.inr ⟨⟨m, rfl⟩, rfl⟩

/-- The trace of convert_to_onnx is the read alone (aborted run) or the
read followed by the one export (successful run). -/
lemma convert_trace_cases (env : Env) :
    (convert_to_onnx env).1 = [Event.readFile weightsPath]
    ∨ (convert_to_onnx env).1
        = [Event.readFile weightsPath, Event.exportOnnx theExportCall] := by
  rcases convert_to_onnx_cases env with ⟨_, h1⟩ | ⟨_, _, _, _, _, h1⟩
  · exact Or.inl h1
  · exact Or.inr h1

/-- A full script run either aborts after the read, or performs read,
export and spawn in that order and reports success. -/
lemma runMain_trace_cases (env : Env) :
    runMain env = ([Event.readFile weightsPath], none)
    ∨ runMain env
        = ([Event.readFile weightsPath, Event.exportOnnx theExportCall,
            Event.spawn tfjsCommand], some ()) := by
  rcases runMain_cases env with ⟨hnone, hr⟩ | ⟨⟨m, hsome⟩, hr⟩
  · rcases convert_to_onnx_cases env with ⟨_, h1⟩ | ⟨m, hsome, _, _, _, _⟩
    · left; rw [hr, h1]
    · rw [hnone] at hsome; exact Option.noConfusion hsome
  · rcases convert_to_onnx_cases env with ⟨hnone, _⟩ | ⟨m2, _, _, _, _, h1⟩
    · rw [hnone] at hsome; exact Option.noConfusion hsome
    · right; rw [hr, h1]; rfl

/-- C1: on every run in which the export succeeds, the Exporter performs
exactly one export call: it traces the model on the single synthetic
example input of shape (1, 3, 64, 64), writes the graph with its
parameters to the relative path "model.onnx" at ONNX opset version 11,
and declares exactly axes 2 (named "height") and 3 (named "width") of
both the input tensor and the output tensor as dynamic, so the batch and
channel axes stay fixed. -/
theorem c1_export_call (env : Env) (m : Model)
    (h : (convert_to_onnx env).2 = some m) :
    (convert_to_onnx env).1.filter isExport = [Event.exportOnnx theExportCall]
    ∧ theExportCall.exampleInput.shape = [1, 3, 64, 64]
    ∧ theExportCall.f = "model.onnx"
    ∧ theExportCall.export_params = true
    ∧ theExportCall.opset_version = 11
    ∧ theExportCall.dynamic_axes
        = [("input", [(2, "height"), (3, "width")]),
           ("output", [(2, "height"), (3, "width")])]
    ∧ (∀ p ∈ theExportCall.dynamic_axes, ∀ q ∈ p.2, q.1 = 2 ∨ q.1 = 3) := by
  rcases convert_to_onnx_cases env with ⟨hnone, _⟩ | ⟨m2, _, _, _, _, h1⟩
  · rw [h] at hnone; exact Option.noConfusion hnone
  · refine ⟨?_, rfl, rfl, rfl, rfl, rfl, ?_⟩
    · rw [h1]; rfl
    · decide

/-- Witness for C1 at the happy-path environment envOK. -/
theorem c1_export_call_witness :
    (convert_to_onnx envOK).1.filter isExport = [Event.exportOnnx theExportCall] :=
  (c1_export_call envOK goodModel rfl).1

/-- C2: every command a script run hands to the shell is the one constant
converter command; its shell argument vector is exactly the documented
fixed list, and at most one command is issued per run, so no flag, path
or argument can depend on any runtime input. -/
theorem c2_converter_command (env : Env) :
    (∀ c, Event.spawn c ∈ (runModule true env).1 → c = tfjsCommand)
    ∧ shellWords tfjsCommand
        = ["tensorflowjs_converter", "--input_format=tf_saved_model",
           "--output_format=tfjs_graph_model", "--signature_name=serving_default",
           "--saved_model_tags=serve", "model.onnx", "../public/models/real-esrgan"]
    ∧ ((runModule true env).1.filter isSpawn).length ≤ 1 := by
  have hmod : (runModule true env).1 = (runMain env).1 := rfl
  refine ⟨?_, by decide, ?_⟩
  · intro c hc
    rw [hmod] at hc
    rcases runMain_trace_cases env with hr | hr
    · rw [hr] at hc; simp at hc
    · rw [hr] at hc
      simp at hc
      exact hc
  · rw [hmod]
    rcases runMain_trace_cases env with hr | hr <;> rw [hr] <;> decide

/-- Witness for C2: in envOK the converter command is spawned and equals
the constant command string. -/
theorem c2_converter_command_witness :
    Event.spawn tfjsCommand ∈ (runModule true envOK).1
    ∧ tfjsCommand = tfjsCommand := by
  have hmem : Event.spawn tfjsCommand ∈ (runModule true envOK).1 := by
    have hmod : (runModule true envOK).1 = (runMain envOK).1 := rfl
    rw [hmod, runMain_envOK]
    simp
  exact ⟨hmem, (c2_converter_command envOK).1 tfjsCommand hmem⟩

/-- C3: the Weight Loader reads only the fixed relative path
weights/RealESRGAN_x4.pth; when torch.load fails (missing or unreadable
file) or the state dict does not align strictly with the instantiated
architecture, the run aborts with no model produced and no export
attempted. -/
theorem c3_weight_load_strict (env : Env) :
    (∀ p, Event.readFile p ∈ (runModule true env).1 → p = weightsPath)
    ∧ (∀ s, env.torchLoad = Except.error s →
        (convert_to_onnx env).2 = none
        ∧ ∀ c, Event.exportOnnx c ∉ (runModule true env).1)
    ∧ (∀ sd, env.torchLoad = Except.ok sd →
        strictMatch sd (RRDBNet 3 3 64 23 32).paramSpec = false →
        (convert_to_onnx env).2 = none
        ∧ ∀ c, Event.exportOnnx c ∉ (runModule true env).1) := by
  have hmod : (runModule true env).1 = (runMain env).1 := rfl
  have hnoexp : convert_to_onnx env = ([Event.readFile weightsPath], none) →
      (convert_to_onnx env).2 = none
      ∧ ∀ c, Event.exportOnnx c ∉ (runModule true env).1 := by
    intro hc
    constructor
    · rw [hc]
    · intro c hcc
      rw [hmod] at hcc
      rcases runMain_cases env with ⟨_, hr⟩ | ⟨⟨m, hsome⟩, _⟩
      · rw [hr, hc] at hcc
        simp at hcc
      · rw [hc] at hsome
        exact Option.noConfusion hsome
  refine ⟨?_, ?_, ?_⟩
  · intro p hp
    rw [hmod] at hp
    rcases runMain_trace_cases env with hr | hr <;> rw [hr] at hp <;> simpa using hp
  · intro s hs
    exact hnoexp (convert_load_fail env s hs)
  · intro sd hsd hm
    exact hnoexp (convert_mismatch_fail env sd hsd hm)

/-- Witness for C3: an empty state dict does not match the manifest, so
the run at envBad aborts with no model. -/
theorem c3_weight_load_strict_witness :
    (convert_to_onnx envBad).2 = none
    ∧ strictMatch [] (RRDBNet 3 3 64 23 32).paramSpec = false :=
  ⟨((c3_weight_load_strict envBad).2.2 [] rfl rfl).1, rfl⟩

/-- C4: the Model Builder takes no external input and always yields the
fixed hardcoded architecture: 3 input channels, 3 output channels, base
feature width 64, 23 residual-in-residual dense blocks, growth channels
32; every model a successful run produces carries exactly these
hyperparameters. -/
theorem c4_fixed_architecture :
    (RRDBNet 3 3 64 23 32).args
      = { num_in_ch := 3, num_out_ch := 3, num_feat := 64,
          num_block := 23, num_grow_ch := 32 }
    ∧ (RRDBNet 3 3 64 23 32).training = true
    ∧ ∀ env m, (convert_to_onnx env).2 = some m →
        m.args = { num_in_ch := 3, num_out_ch := 3, num_feat := 64,
                   num_block := 23, num_grow_ch := 32 } := by
  refine ⟨rfl, rfl, ?_⟩
  intro env m h
  rcases convert_to_onnx_cases env with ⟨hnone, _⟩ | ⟨m2, hsome, _, hargs, _, _⟩
  · rw [h] at hnone; exact Option.noConfusion hnone
  · have hm : m2 = m := by injection hsome.symm.trans h
    rw [← hm]
    exact hargs

/-- Witness for C4: the model loaded in envOK carries the fixed
hyperparameters. -/
theorem c4_fixed_architecture_witness :
    goodModel.args
      = { num_in_ch := 3, num_out_ch := 3, num_feat := 64,
          num_block := 23, num_grow_ch := 32 } :=
  c4_fixed_architecture.2.2 envOK goodModel rfl

/-- C5: after a successful weight load the model is in inference mode,
and from that point its output is a deterministic function of its input:
two forward evaluations on the same input agree whatever the random
states supplied. -/
theorem c5_inference_determinism (env : Env) (m : Model)
    (h : (convert_to_onnx env).2 = some m) :
    m.training = false
    ∧ ∀ x r1 r2, m.forward r1 x = m.forward r2 x := by
  rcases convert_to_onnx_cases env with ⟨hnone, _⟩ | ⟨m2, hsome, htr, _, _, _⟩
  · rw [h] at hnone; exact Option.noConfusion hnone
  · have hm : m2 = m := by injection hsome.symm.trans h
    subst hm
    refine ⟨htr, ?_⟩
    intro x r1 r2
    simp [Model.forward, htr]

/-- Witness for C5: the model loaded in envOK is in inference mode and
two evaluations with different random states agree on a concrete
input. -/
theorem c5_inference_determinism_witness :
    goodModel.training = false
    ∧ goodModel.forward 0 (randn [1, 3, 64, 64])
        = goodModel.forward 1 (randn [1, 3, 64, 64]) :=
  ⟨(c5_inference_determinism envOK goodModel rfl).1,
   (c5_inference_determinism envOK goodModel rfl).2 (randn [1, 3, 64, 64]) 0 1⟩

/-- C6: the exit status of the converter subprocess has no effect on the
run: two runs differing only in that status are identical, and a run
whose export succeeded reports success whatever the status, with exactly
one spawn (so no retry). -/
theorem c6_exit_status_ignored (env : Env) :
    (∀ k, runMain { env with converterExit := k } = runMain env)
    ∧ ((convert_to_onnx env).2.isSome = true →
        (runMain env).2 = some ()
        ∧ ((runMain env).1.filter isSpawn).length = 1) := by
  constructor
  · intro k
    obtain ⟨tl, ew, ce⟩ := env
    rfl
  · intro h
    rcases runMain_cases env with ⟨hnone, _⟩ | ⟨_, hr⟩
    · rw [hnone] at h; simp at h
    · constructor
      · rw [hr]
      · rcases convert_trace_cases env with h1 | h1
        · rw [hr, h1]; decide
        · rw [hr, h1]; decide

/-- Witness for C6: in envOK the exit status is interchangeable and the
run reports success. -/
theorem c6_exit_status_ignored_witness :
    runMain { envOK with converterExit := 7 } = runMain envOK
    ∧ (runMain envOK).2 = some () :=
  ⟨(c6_exit_status_ignored envOK).1 7, ((c6_exit_status_ignored envOK).2 rfl).1⟩

/-- C7: the pipeline is strictly sequential: a run that spawns the
converter has the trace read, then export, then spawn, so the spawn can
only follow a completed export; and a run whose export step fails, in
particular when the ONNX write fails, aborts with no spawn at all. -/
theorem c7_sequential_pipeline (env : Env) :
    ((convert_to_onnx env).2 = none →
      (runMain env).2 = none ∧ ∀ c, Event.spawn c ∉ (runMain env).1)
    ∧ (env.exportWriteOk = false →
      (runMain env).2 = none ∧ ∀ c, Event.spawn c ∉ (runMain env).1)
    ∧ (∀ c, Event.spawn c ∈ (runMain env).1 →
        (runMain env).1
          = [Event.readFile weightsPath, Event.exportOnnx theExportCall,
             Event.spawn tfjsCommand]) := by
  have hA : (convert_to_onnx env).2 = none →
      (runMain env).2 = none ∧ ∀ c, Event.spawn c ∉ (runMain env).1 := by
    intro hnone
    rcases runMain_cases env with ⟨_, hr⟩ | ⟨⟨m, hsome⟩, _⟩
    · constructor
      · rw [hr]
      · intro c hc
        rw [hr] at hc
        rcases convert_trace_cases env with h1 | h1 <;> rw [h1] at hc <;> simp at hc
    · rw [hnone] at hsome; exact Option.noConfusion hsome
  refine ⟨hA, ?_, ?_⟩
  · intro hw
    exact hA (congrArg Prod.snd (convert_write_fail env hw))
  · intro c hc
    rcases runMain_trace_cases env with hr | hr
    · rw [hr] at hc; simp at hc
    · rw [hr]

/-- Witness for C7: with the write failing the run aborts without
success, and the successful run at envOK has the full ordered trace. -/
theorem c7_sequential_pipeline_witness :
    (runMain envNoWrite).2 = none
    ∧ (runMain envOK).1
        = [Event.readFile weightsPath, Event.exportOnnx theExportCall,
           Event.spawn tfjsCommand] := by
  constructor
  · exact ((c7_sequential_pipeline envNoWrite).2.1 rfl).1
  · refine (c7_sequential_pipeline envOK).2.2 tfjsCommand ?_
    rw [runMain_envOK]
    simp

/-- C9: every export event a script run performs names its single graph
input "input" and its single graph output "output"; both name lists are
the fixed one-element constants. -/
theorem c9_io_names (env : Env) (call : OnnxExportCall)
    (h : Event.exportOnnx call ∈ (runModule true env).1) :
    call.input_names = ["input"] ∧ call.output_names = ["output"]
    ∧ call.input_names.length = 1 ∧ call.output_names.length = 1 := by
  have hmod : (runModule true env).1 = (runMain env).1 := rfl
  rw [hmod] at h
  have hcall : call = theExportCall := by
    rcases runMain_trace_cases env with hr | hr <;> rw [hr] at h <;> simp at h
    exact h
  subst hcall
  exact ⟨rfl, rfl, rfl, rfl⟩

/-- Witness for C9: the export event of the run at envOK carries the
constant names. -/
theorem c9_io_names_witness :
    theExportCall.input_names = ["input"]
    ∧ theExportCall.output_names = ["output"] := by
  have hmem : Event.exportOnnx theExportCall ∈ (runModule true envOK).1 := by
    have hmod : (runModule true envOK).1 = (runMain envOK).1 := rfl
    rw [hmod, runMain_envOK]
    simp
  exact ⟨(c9_io_names envOK theExportCall hmem).1,
         (c9_io_names envOK theExportCall hmem).2.1⟩

/-- C10: convert_to_onnx on its own never spawns a subprocess, and every
event it performs is either the weight-file read or the one export to
model.onnx; importing the module performs no event at all, and a spawn
can occur only when the module runs under the main guard. -/
theorem c10_effects_scope (env : Env) :
    (∀ c, Event.spawn c ∉ (convert_to_onnx env).1)
    ∧ (∀ e, e ∈ (convert_to_onnx env).1 →
        e = Event.readFile weightsPath
        ∨ ∃ call, e = Event.exportOnnx call ∧ call.f = onnxPath)
    ∧ runModule false env = ([], some ())
    ∧ (∀ b c, Event.spawn c ∈ (runModule b env).1 → b = true) := by
  refine ⟨?_, ?_, rfl, ?_⟩
  · intro c hc
    rcases convert_trace_cases env with h1 | h1 <;> rw [h1] at hc <;> simp at hc
  · intro e he
    rcases convert_trace_cases env with h1 | h1 <;> rw [h1] at he <;> simp at he
    · exact Or.inl he
    · rcases he with he | he
      · exact Or.inl he
      · exact Or.inr ⟨theExportCall, he, rfl⟩
  · intro b c hb
    cases b with
    | true => rfl
    | false => simp [runModule] at hb

/-- Witness for C10: importing at envOK performs nothing, and the read
event of the function-only run falls in the allowed set. -/
theorem c10_effects_scope_witness :
    runModule false envOK = ([], some ())
    ∧ (Event.readFile weightsPath = Event.readFile weightsPath
        ∨ ∃ call, Event.readFile weightsPath = Event.exportOnnx call
            ∧ call.f = onnxPath) := by
  refine ⟨(c10_effects_scope envOK).2.2.1, ?_⟩
  refine (c10_effects_scope envOK).2.1 (Event.readFile weightsPath) ?_
  rw [convert_envOK]
  simp
